import Mathlib

/-!
Shallow embedding of the room-scoped real-time event fan-out subsystem of
`semana-tech-go-react-server` (`src/server/internal/api/api.go`), together
with theorems settling the frozen claims about it.

The embedding models:
  * the event taxonomy (`MessageCreated`, `MessageAnswered`, `MessageReaction`
    structs and the four kind constants),
  * JSON marshalling of the broadcast `Message` envelope as Go
    `encoding/json` produces it from the struct tags,
  * the subscription registry `subscribes map[string]map[*websocket.Conn]context.CancelFunc`
    as an association list from raw room-id strings to subscriber lists,
  * `notifyClients` (the broadcaster), `handleSubscribe` (the connection
    lifecycle) and the four state-change HTTP handlers.

Go maps are modelled as association lists; a `*websocket.Conn` handle is a
natural number; a `context.CancelFunc` is modelled by a `cancelled` flag on
the subscriber entry; the environment (database results, connection write
failures, upgrade outcome) is passed in explicitly.
-/

namespace Fanout

/-- A JSON value, as produced by Go `encoding/json` marshalling of the
structs in `api.go` (only the shapes that occur there are needed). -/
inductive Json where
  | str (s : String)
  | num (n : Int)
  | obj (fields : List (String × Json))
  deriving Repr

/-- Field names of a JSON object (empty for non-objects). -/
def Json.keys : Json → List String
  | .obj fields => fields.map Prod.fst
  | _ => []

/-- The four event kind constants of `api.go`
(`KindMessageCreated` etc.). -/
def KindMessageCreated : String := "message_created"

def KindMessageAnswered : String := "message_answered"

def KindMessageReactionIncreased : String := "message_reaction_increased"

def KindMessageReactionDecreased : String := "message_reaction_decreased"

/-- The `Value any` payload of a broadcast `Message`: in `api.go` the
handlers place one of the three payload structs there.
`messageCreated id message` is `MessageCreated{ID, Message}` (JSON tags
`id`, `message`); `messageAnswered id` is `MessageAnswered{ID}` (tag `id`);
`messageReaction id reactCount` is `MessageReaction{ID, ReactCount}` (tags
`id`, `react_count`). -/
inductive Payload where
  | messageCreated (id message : String)
  | messageAnswered (id : String)
  | messageReaction (id : String) (reactCount : Int)
  deriving DecidableEq, Repr

/-- Go `encoding/json` marshalling of a payload struct: every tagged field
is emitted, in struct order, zero values included (no `omitempty` tags in
`api.go`). -/
def Payload.toJson : Payload → Json
  | .messageCreated id message => .obj [("id", .str id), ("message", .str message)]
  | .messageAnswered id => .obj [("id", .str id)]
  | .messageReaction id reactCount => .obj [("id", .str id), ("react_count", .num reactCount)]

/-- The broadcast envelope struct `Message` of `api.go`:
`Kind string (json:kind)`, `Value any (json:value)`,
`RoomID string (json:-)`. -/
structure Message where
  kind : String
  value : Payload
  roomID : String
  deriving DecidableEq, Repr

/-- Go `encoding/json` marshalling of `Message`: the `kind` and `value`
fields are emitted under their tags; `RoomID` carries the tag `-` and is
never emitted. -/
def Message.toJson (m : Message) : Json :=
  .obj [("kind", .str m.kind), ("value", m.value.toJson)]

/-- One entry of an inner map `map[*websocket.Conn]context.CancelFunc`:
the connection handle and the state of its cancellation context
(`cancelled = true` once its `context.CancelFunc` has been invoked). -/
structure Sub where
  conn : Nat
  cancelled : Bool
  deriving DecidableEq, Repr

/-- The `subscribes map[string]map[*websocket.Conn]context.CancelFunc`
table, as an association list keyed by the raw room-id string. A key that
is absent corresponds to a missing map entry. -/
abbrev Registry : Type := List (String × List Sub)

/-- The empty table, as created by `NewHandler` (`make(map[string]...)`). -/
def Registry.empty : Registry := []

/-- Map indexing with comma-ok: `subscribes, ok := h.subscribes[roomID]`.
`none` models `ok = false`. -/
def lookupRoom (reg : Registry) (roomId : String) : Option (List Sub) :=
  (reg.find? (fun p => p.1 = roomId)).map Prod.snd

/-- `h.subscribes[rawRoomID][conn] = cancel` preceded by
`if _, ok := ...; !ok { h.subscribes[rawRoomID] = make(...) }`:
creates the inner map when absent, then inserts the connection with a
fresh (not yet cancelled) context. -/
def registerOp (reg : Registry) (roomId : String) (c : Nat) : Registry :=
  match lookupRoom reg roomId with
  | none => reg ++ [(roomId, [⟨c, false⟩])]
  | some _ =>
      reg.map (fun p => if p.1 = roomId then (p.1, p.2 ++ [⟨c, false⟩]) else p)

/-- `delete(h.subscribes[rawRoomID], conn)`: removes the connection from
the inner map for that room when both exist; indexing an absent key yields
the nil map and `delete` on it is a no-op, so the table is untouched in
that case. -/
def deregisterOp (reg : Registry) (roomId : String) (c : Nat) : Registry :=
  reg.map (fun p => if p.1 = roomId then (p.1, p.2.filter (fun s => s.conn ≠ c)) else p)

/-- Result of one `notifyClients` call. `registry` is the table afterwards
(with the cancellation flags of failed subscribers set, reflecting their
fired contexts); `delivered` lists the connections whose `WriteJSON`
succeeded, in iteration order; `cancelFired` lists the connections whose
`cancel()` was invoked; `err` is the error surfaced to the caller —
`notifyClients` has no error return in `api.go`, so it is always `none`. -/
structure BroadcastResult where
  registry : Registry
  delivered : List Nat
  cancelFired : List Nat
  err : Option String
  deriving DecidableEq, Repr

/-- The delivery loop body of `notifyClients`:
`for conn, cancel := range subscribes { if err := conn.WriteJSON(msg); err != nil { slog.Error(...); cancel() } }`.
`writeFails c = true` models `conn.WriteJSON` returning an error for
connection `c`. Returns the subscriber list with fired cancellations
recorded, the successful deliveries and the fired cancels, front to back. -/
def deliverLoop (writeFails : Nat → Bool) : List Sub → List Sub × List Nat × List Nat
  | [] => ([], [], [])
  | s :: rest =>
      let r := deliverLoop writeFails rest
      if writeFails s.conn then
        ({ s with cancelled := true } :: r.1, r.2.1, s.conn :: r.2.2)
      else
        (s :: r.1, s.conn :: r.2.1, r.2.2)

/-- Replace the subscriber list stored for a room (used to reflect the
cancellation contexts fired during a broadcast). -/
def setRoom (reg : Registry) (roomId : String) (subs : List Sub) : Registry :=
  reg.map (fun p => if p.1 = roomId then (p.1, subs) else p)

/-- `notifyClients` of `api.go`: look the room up with comma-ok; if absent
or empty, return at once; otherwise run the delivery loop. The function
has no error return and never panics on a write failure. -/
def notifyClients (writeFails : Nat → Bool) (reg : Registry) (msg : Message) :
    BroadcastResult :=
  match lookupRoom reg msg.roomID with
  | none => ⟨reg, [], [], none⟩
  | some subs =>
      if subs.isEmpty then ⟨reg, [], [], none⟩
      else
        let r := deliverLoop writeFails subs
        ⟨setRoom reg msg.roomID r.1, r.2.1, r.2.2, none⟩

/-- The hyphen character (written by code point to keep literals tidy). -/
def hyphen : Char := Char.ofNat 45

/-- Hexadecimal digit test, both cases, as accepted by the uuid parser of
the `github.com/google/uuid` dependency. -/
def isHexDigit (c : Char) : Bool :=
  "0123456789abcdefABCDEF".toList.contains c

/-- Re-insert the canonical hyphens (8-4-4-4-12 grouping) into a 32-digit
hex string, producing the canonical textual form that `uuid.String()`
returns. -/
def hyphenate (hex : List Char) : List Char :=
  hex.take 8 ++ [hyphen] ++ (hex.drop 8).take 4 ++ [hyphen] ++ (hex.drop 12).take 4
    ++ [hyphen] ++ (hex.drop 16).take 4 ++ [hyphen] ++ hex.drop 20

/-- Models `uuid.Parse` of the external `github.com/google/uuid` dependency,
restricted to the two plain textual forms it documents: the canonical
36-character hyphenated form and the 32-character form without hyphens
(case-insensitive in both). The result is the canonical lowercase
hyphenated string that `uuid.String()` would print for the parsed value,
so two spellings parse to the same UUID exactly when this function maps
them to the same canonical string. -/
def uuidParse (s : String) : Option String :=
  let cs := s.data
  if cs.length = 36 then
    if (cs.get? 8 == some hyphen) && (cs.get? 13 == some hyphen)
        && (cs.get? 18 == some hyphen) && (cs.get? 23 == some hyphen) then
      let hex := cs.enum.filterMap
        (fun p => if p.1 = 8 || p.1 = 13 || p.1 = 18 || p.1 = 23 then none else some p.2)
      if hex.all isHexDigit then some (String.mk (hyphenate (hex.map Char.toLower)))
      else none
    else none
  else if cs.length = 32 then
    if cs.all isHexDigit then some (String.mk (hyphenate (cs.map Char.toLower)))
    else none
  else none

/-- Outcome of one store query (`pgstore.Queries` call): success with a
value, `pgx.ErrNoRows`, or any other error. -/
inductive StoreResult (α : Type) where
  | ok (a : α)
  | noRows
  | otherErr
  deriving Repr

/-- Observable steps of the connection-lifecycle routine
`handleSubscribe`, in the order the routine performs them. -/
inductive Action where
  | httpError (status : Nat) (body : String)
  | upgrade (conn : Nat)
  | register (roomId : String) (conn : Nat)
  | waitCancel (conn : Nat)
  | deregister (roomId : String) (conn : Nat)
  | closeConn (conn : Nat)
  deriving DecidableEq, Repr

/-- Environment of a `handleSubscribe` call: the store (`GetRoom`, keyed
by the canonical string of the parsed room UUID), the outcome of
`upgrader.Upgrade`, and the fresh connection handle the upgrade yields. -/
structure SubEnv where
  getRoom : String → StoreResult Unit
  upgradeOk : Bool
  freshConn : Nat

/-- Result of a `handleSubscribe` call: the registry when the routine
returns, and the trace of its observable steps in order. -/
structure SubscribeResult where
  registry : Registry
  trace : List Action
  deriving DecidableEq, Repr

/-- `handleSubscribe` of `api.go`: parse the raw room id; 400 on parse
failure; `GetRoom`; 400 on `pgx.ErrNoRows`, 500 on any other store error;
upgrade (400 on failure, with `defer conn.Close()` registered on
success); make a cancellable context; register the connection under the
RAW room-id string; block on the context; deregister; the deferred close
runs; return. The trace records the steps in execution order. -/
def handleSubscribe (env : SubEnv) (reg : Registry) (rawRoomID : String) :
    SubscribeResult :=
  match uuidParse rawRoomID with
  | none => ⟨reg, [.httpError 400 "invalid room id"]⟩
  | some roomID =>
    match env.getRoom roomID with
    | .noRows => ⟨reg, [.httpError 400 "room not found"]⟩
    | .otherErr => ⟨reg, [.httpError 500 "something went wrong"]⟩
    | .ok _ =>
      if env.upgradeOk then
        let c := env.freshConn
        let reg1 := registerOp reg rawRoomID c
        let reg2 := deregisterOp reg1 rawRoomID c
        ⟨reg2, [.upgrade c, .register rawRoomID c, .waitCancel c,
                .deregister rawRoomID c, .closeConn c]⟩
      else ⟨reg, [.httpError 400 "failed to upgrade to ws connection"]⟩

/-- An HTTP response written by one of the state-change handlers. -/
inductive HttpResponse where
  | err (status : Nat) (body : String)
  | ok (body : Json)
  | noContent
  deriving Repr

/-- Whether a response is an error response (`http.Error` was called). -/
def HttpResponse.isError : HttpResponse → Bool
  | .err _ _ => true
  | _ => false

/-- Environment of the state-change handlers: the store queries they use
(all keyed by canonical UUID strings) and the decoded request body
(`none` models a body that fails JSON decoding). -/
structure HandlerEnv where
  getRoom : String → StoreResult Unit
  getMessage : String → StoreResult Unit
  insertMessage : String → String → StoreResult String
  reactToMessage : String → StoreResult Int
  removeReaction : String → StoreResult Int
  markAnswered : String → StoreResult Unit
  body : Option String

/-- `handleCreateRoomMessages` of `api.go`: validate the room id and its
existence, decode the body, `InsertMessage`; on success respond with the
new id and spawn `notifyClients` with a `message_created` event addressed
to the RAW room-id string. The second component lists the broadcaster
invocations the handler spawns. -/
def handleCreateRoomMessages (env : HandlerEnv) (rawRoomID : String) :
    HttpResponse × List Message :=
  match uuidParse rawRoomID with
  | none => (.err 400 "invalid room id", [])
  | some roomID =>
    match env.getRoom roomID with
    | .noRows => (.err 400 "room not found", [])
    | .otherErr => (.err 500 "something went wrong", [])
    | .ok _ =>
      match env.body with
      | none => (.err 400 "invalid json", [])
      | some message =>
        match env.insertMessage roomID message with
        | .noRows => (.err 500 "something went wrong", [])
        | .otherErr => (.err 500 "something went wrong", [])
        | .ok messageID =>
          (.ok (.obj [("id", .str messageID)]),
           [⟨KindMessageCreated, .messageCreated messageID message, rawRoomID⟩])

/-- `handleReactToMessage` of `api.go`: validate room and message, then
`ReactToMessage`; on success respond with the new count and spawn
`notifyClients` with a `message_reaction_increased` event. -/
def handleReactToMessage (env : HandlerEnv) (rawRoomID rawMessageID : String) :
    HttpResponse × List Message :=
  match uuidParse rawRoomID with
  | none => (.err 400 "invalid room id", [])
  | some roomID =>
    match env.getRoom roomID with
    | .noRows => (.err 400 "room not found", [])
    | .otherErr => (.err 500 "something went wrong", [])
    | .ok _ =>
      match uuidParse rawMessageID with
      | none => (.err 400 "invalid message id", [])
      | some messageID =>
        match env.getMessage messageID with
        | .noRows => (.err 400 "message not found", [])
        | .otherErr => (.err 500 "something went wrong", [])
        | .ok _ =>
          match env.reactToMessage messageID with
          | .noRows => (.err 500 "something went wrong", [])
          | .otherErr => (.err 500 "something went wrong", [])
          | .ok reactCount =>
            (.ok (.obj [("react_count", .num reactCount)]),
             [⟨KindMessageReactionIncreased, .messageReaction messageID reactCount,
               rawRoomID⟩])

/-- `handleRemoveReactFromMessage` of `api.go`: validate room and message,
then `RemoveReactionFromMessage`; on success respond with the new count
and spawn `notifyClients` with a `message_reaction_decreased` event. -/
def handleRemoveReactFromMessage (env : HandlerEnv) (rawRoomID rawMessageID : String) :
    HttpResponse × List Message :=
  match uuidParse rawRoomID with
  | none => (.err 400 "invalid room id", [])
  | some roomID =>
    match env.getRoom roomID with
    | .noRows => (.err 400 "room not found", [])
    | .otherErr => (.err 500 "something went wrong", [])
    | .ok _ =>
      match uuidParse rawMessageID with
      | none => (.err 400 "invalid message id", [])
      | some messageID =>
        match env.getMessage messageID with
        | .noRows => (.err 400 "message not found", [])
        | .otherErr => (.err 500 "something went wrong", [])
        | .ok _ =>
          match env.removeReaction messageID with
          | .noRows => (.err 500 "something went wrong", [])
          | .otherErr => (.err 500 "something went wrong", [])
          | .ok reactCount =>
            (.ok (.obj [("react_count", .num reactCount)]),
             [⟨KindMessageReactionDecreased, .messageReaction messageID reactCount,
               rawRoomID⟩])

/-- `handleMarkMessageAsAnswer` of `api.go`: validate room and message,
then `MarkMessageAsAnswered`; on success respond 204 and spawn
`notifyClients` with a `message_answered` event. NOTE: the source builds
the payload as `MessageCreated{ID: messageID.String()}` — the
`MessageCreated` struct, not `MessageAnswered` — leaving its `Message`
field at the zero value `""`; the embedding reproduces that verbatim. -/
def handleMarkMessageAsAnswer (env : HandlerEnv) (rawRoomID rawMessageID : String) :
    HttpResponse × List Message :=
  match uuidParse rawRoomID with
  | none => (.err 400 "invalid room id", [])
  | some roomID =>
    match env.getRoom roomID with
    | .noRows => (.err 400 "room not found", [])
    | .otherErr => (.err 500 "something went wrong", [])
    | .ok _ =>
      match uuidParse rawMessageID with
      | none => (.err 400 "invalid message id", [])
      | some messageID =>
        match env.getMessage messageID with
        | .noRows => (.err 400 "message not found", [])
        | .otherErr => (.err 500 "something went wrong", [])
        | .ok _ =>
          match env.markAnswered messageID with
          | .noRows => (.err 500 "something went wrong", [])
          | .otherErr => (.err 500 "something went wrong", [])
          | .ok _ =>
            (.noContent,
             [⟨KindMessageAnswered, .messageCreated messageID "", rawRoomID⟩])

/-- Membership of a connection in the set registered for a room. -/
def connInRoom (reg : Registry) (roomId : String) (c : Nat) : Bool :=
  match lookupRoom reg roomId with
  | none => false
  | some subs => subs.any (fun s => s.conn = c)

/-- A connection handle that appears in no room's set (in the source, the
`*websocket.Conn` just produced by `upgrader.Upgrade` is a fresh pointer
distinct from every live handle). -/
def connAbsent (reg : Registry) (c : Nat) : Bool :=
  reg.all (fun p => p.2.all (fun s => s.conn ≠ c))

/-- Number of rooms whose subscriber set contains connection `c`. -/
def roomsWith (reg : Registry) (c : Nat) : Nat :=
  reg.countP (fun p => p.2.any (fun s => s.conn = c))

/-- One registry mutation as the code performs it under `h.mu`: a
registration of a fresh connection (fresh because `Upgrade` returns a new
handle each call, registered exactly once, in `handleSubscribe`), or a
deregistration. -/
inductive Step : Registry → Registry → Prop where
  | register (reg : Registry) (roomId : String) (c : Nat)
      (fresh : connAbsent reg c = true) :
      Step reg (registerOp reg roomId c)
  | deregister (reg : Registry) (roomId : String) (c : Nat) :
      Step reg (deregisterOp reg roomId c)

/-- Registry states reachable from the empty table of `NewHandler` by the
mutations the code performs. -/
inductive Reachable : Registry → Prop where
  | empty : Reachable Registry.empty
  | step {reg reg2 : Registry} : Reachable reg → Step reg reg2 → Reachable reg2

/-- The association list represents a Go map: every room key occurs at
most once. -/
def keysNodup (reg : Registry) : Prop := (reg.map Prod.fst).Nodup

theorem deliverLoop_delivered (wf : Nat → Bool) (subs : List Sub) :
    (deliverLoop wf subs).2.1 = (subs.filter (fun s => !wf s.conn)).map Sub.conn := by
  induction subs with
  | nil => rfl
  | cons s rest ih =>
      by_cases h : wf s.conn = true <;>
        simp [deliverLoop, h, ih, List.filter_cons]

theorem deliverLoop_cancelFired (wf : Nat → Bool) (subs : List Sub) :
    (deliverLoop wf subs).2.2 = (subs.filter (fun s => wf s.conn)).map Sub.conn := by
  induction subs with
  | nil => rfl
  | cons s rest ih =>
      by_cases h : wf s.conn = true <;>
        simp [deliverLoop, h, ih, List.filter_cons]

/-- C1: when a broadcast reaches a room whose subscriber list is `subs`,
the connections whose write fails are exactly the ones whose cancellation
handle is fired, every subscriber whose write succeeds receives the event
(delivery continues past failures), and no error is returned to the
caller. -/
theorem broadcast_partial_failure_isolation
    (wf : Nat → Bool) (reg : Registry) (msg : Message) (subs : List Sub)
    (hlook : lookupRoom reg msg.roomID = some subs) :
    (notifyClients wf reg msg).delivered
        = (subs.filter (fun s => !wf s.conn)).map Sub.conn
    ∧ (notifyClients wf reg msg).cancelFired
        = (subs.filter (fun s => wf s.conn)).map Sub.conn
    ∧ (notifyClients wf reg msg).err = none := by
  unfold notifyClients
  rw [hlook]
  by_cases hsub : subs.isEmpty
  · rw [List.isEmpty_iff] at hsub
    subst hsub
    simp
  · simp only [hsub, if_false, Bool.false_eq_true]
    exact ⟨deliverLoop_delivered wf subs, deliverLoop_cancelFired wf subs, trivial⟩

/-- Witness for C1: three subscribers, connection 2 broken — 1 and 3 are
delivered to, only 2's cancellation fires, no error. -/
theorem broadcast_partial_failure_isolation_witness :
    (notifyClients (fun c => c == 2) [("r1", [⟨1, false⟩, ⟨2, false⟩, ⟨3, false⟩])]
        ⟨"message_created", .messageCreated "m1" "hi", "r1"⟩).delivered = [1, 3]
    ∧ (notifyClients (fun c => c == 2) [("r1", [⟨1, false⟩, ⟨2, false⟩, ⟨3, false⟩])]
        ⟨"message_created", .messageCreated "m1" "hi", "r1"⟩).cancelFired = [2]
    ∧ (notifyClients (fun c => c == 2) [("r1", [⟨1, false⟩, ⟨2, false⟩, ⟨3, false⟩])]
        ⟨"message_created", .messageCreated "m1" "hi", "r1"⟩).err = none := by
  have h := broadcast_partial_failure_isolation (fun c => c == 2)
    [("r1", [⟨1, false⟩, ⟨2, false⟩, ⟨3, false⟩])]
    ⟨"message_created", .messageCreated "m1" "hi", "r1"⟩
    [⟨1, false⟩, ⟨2, false⟩, ⟨3, false⟩] (by rfl)
  exact ⟨h.1.trans (by decide), h.2.1.trans (by decide), h.2.2⟩

/-- C6: broadcasting to a room with no registry entry or an empty
subscriber set returns at once: no delivery, no cancellation, the registry
untouched, no error. -/
theorem broadcast_empty_noop
    (wf : Nat → Bool) (reg : Registry) (msg : Message)
    (h : lookupRoom reg msg.roomID = none ∨ lookupRoom reg msg.roomID = some []) :
    notifyClients wf reg msg = ⟨reg, [], [], none⟩ := by
  unfold notifyClients
  rcases h with h | h <;> simp [h]

/-- Witness for C6: a registry holding only room `r2`; broadcasting to
`r1` (no entry) is a complete no-op. -/
theorem broadcast_empty_noop_witness :
    notifyClients (fun _ => false) [("r2", [⟨1, false⟩])]
        ⟨"message_created", .messageCreated "m1" "hi", "r1"⟩
      = ⟨[("r2", [⟨1, false⟩])], [], [], none⟩ :=
  broadcast_empty_noop (fun _ => false) [("r2", [⟨1, false⟩])]
    ⟨"message_created", .messageCreated "m1" "hi", "r1"⟩ (Or.inl (by rfl))

/-- C3: the wire payload of every event is one JSON object with exactly
the top-level fields `kind` and `value` (in that shape), and the
serialization does not depend on the `RoomID` routing key (its `json` tag
is `-`), so the room identifier is never included. -/
theorem wire_payload_shape (m : Message) (r : String) :
    Message.toJson m = .obj [("kind", .str m.kind), ("value", m.value.toJson)]
    ∧ (Message.toJson m).keys = ["kind", "value"]
    ∧ Message.toJson { m with roomID := r } = Message.toJson m :=
  ⟨rfl, rfl, rfl⟩

/-- C2 counter-evidence: on the success path of `handleMarkMessageAsAnswer`
the single broadcast event has kind `message_answered`, but its `value`
object carries the two fields `id` and `message` (the code marshals a
`MessageCreated` struct with a zero-valued `Message` field), not the
single field `id` that the unused `MessageAnswered` struct — and the spec
— call for. -/
theorem message_answered_payload_extra_field :
    ((handleMarkMessageAsAnswer
        ⟨fun _ => .ok (), fun _ => .ok (), fun _ _ => .ok "", fun _ => .ok 0,
         fun _ => .ok 0, fun _ => .ok (), none⟩
        "7cc67d16-178a-4f26-8b9c-ae38c1bbc52a"
        "11111111-2222-3333-4444-555555555555").2.map
      (fun m => (m.kind, (m.value.toJson).keys)))
      = [("message_answered", ["id", "message"])]
    ∧ ["id", "message"] ≠ ["id"]
    ∧ (Payload.toJson (.messageAnswered "m1")).keys = ["id"] := by
  refine ⟨?_, by decide, rfl⟩
  rfl

/-- C4: a successful subscription (valid id, room found, upgrade ok)
performs, in order: upgrade, registration of the connection into the
room's set, the blocking wait on the cancellation context, deregistration,
and only then the deferred connection close; the trace is everything the
routine does before returning, so it returns only after deregistration. -/
theorem subscribe_lifecycle_order
    (env : SubEnv) (reg : Registry) (raw roomID : String)
    (hparse : uuidParse raw = some roomID)
    (hroom : env.getRoom roomID = .ok ())
    (hup : env.upgradeOk = true) :
    (handleSubscribe env reg raw).trace =
      [.upgrade env.freshConn, .register raw env.freshConn, .waitCancel env.freshConn,
       .deregister raw env.freshConn, .closeConn env.freshConn] := by
  simp [handleSubscribe, hparse, hroom, hup]

/-- Witness for C4: a concrete successful subscription produces the five
steps in order. -/
theorem subscribe_lifecycle_order_witness :
    (handleSubscribe ⟨fun _ => .ok (), true, 7⟩ []
        "7cc67d16-178a-4f26-8b9c-ae38c1bbc52a").trace =
      [.upgrade 7, .register "7cc67d16-178a-4f26-8b9c-ae38c1bbc52a" 7, .waitCancel 7,
       .deregister "7cc67d16-178a-4f26-8b9c-ae38c1bbc52a" 7, .closeConn 7] :=
  subscribe_lifecycle_order ⟨fun _ => .ok (), true, 7⟩ []
    "7cc67d16-178a-4f26-8b9c-ae38c1bbc52a" "7cc67d16-178a-4f26-8b9c-ae38c1bbc52a"
    (by rfl) (by rfl) (by rfl)

/-- C5: when the room lookup reports not-found (`pgx.ErrNoRows`), the
request is answered with a 400 client error and nothing else happens: no
upgrade, no registration, and the registry is returned unchanged. -/
theorem subscribe_room_not_found
    (env : SubEnv) (reg : Registry) (raw roomID : String)
    (hparse : uuidParse raw = some roomID)
    (hroom : env.getRoom roomID = .noRows) :
    handleSubscribe env reg raw = ⟨reg, [.httpError 400 "room not found"]⟩ := by
  simp [handleSubscribe, hparse, hroom]

/-- Witness for C5: a concrete not-found lookup refuses the subscription
and leaves a one-subscriber registry untouched. -/
theorem subscribe_room_not_found_witness :
    handleSubscribe ⟨fun _ => .noRows, true, 7⟩ [("r2", [⟨1, false⟩])]
        "7cc67d16-178a-4f26-8b9c-ae38c1bbc52a"
      = ⟨[("r2", [⟨1, false⟩])], [.httpError 400 "room not found"]⟩ :=
  subscribe_room_not_found ⟨fun _ => .noRows, true, 7⟩ [("r2", [⟨1, false⟩])]
    "7cc67d16-178a-4f26-8b9c-ae38c1bbc52a" "7cc67d16-178a-4f26-8b9c-ae38c1bbc52a"
    (by rfl) (by rfl)

/-- C10: the registry key is the raw room-id string from the URL. A
subscriber registered under raw string `r1` receives an event addressed
with raw string `r2` exactly when `r1 = r2` as strings; the hyphenated and
non-hyphenated spellings of one UUID parse to the same value, are distinct
strings, and an event addressed with one is not delivered to a subscriber
registered under the other. -/
theorem registry_keyed_by_raw_string :
    (∀ (r1 r2 : String) (c : Nat),
        (notifyClients (fun _ => false) (registerOp Registry.empty r1 c)
            ⟨"message_created", .messageCreated "m" "t", r2⟩).delivered
          = if r1 = r2 then [c] else [])
    ∧ uuidParse "7cc67d16-178a-4f26-8b9c-ae38c1bbc52a"
        = uuidParse "7cc67d16178a4f268b9cae38c1bbc52a"
    ∧ ("7cc67d16-178a-4f26-8b9c-ae38c1bbc52a" : String)
        ≠ "7cc67d16178a4f268b9cae38c1bbc52a"
    ∧ (notifyClients (fun _ => false)
          (registerOp Registry.empty "7cc67d16-178a-4f26-8b9c-ae38c1bbc52a" 1)
          ⟨"message_created", .messageCreated "m" "t",
           "7cc67d16178a4f268b9cae38c1bbc52a"⟩).delivered = [] := by
  refine ⟨?_, by decide, by decide, by decide⟩
  intro r1 r2 c
  by_cases h : r1 = r2 <;>
    simp [notifyClients, lookupRoom, registerOp, Registry.empty, deliverLoop, h]

/-- Witness for C10: registering under `a` and broadcasting to `a`
delivers; broadcasting to `b` does not. -/
theorem registry_keyed_by_raw_string_witness :
    (notifyClients (fun _ => false) (registerOp Registry.empty "a" 5)
        ⟨"message_created", .messageCreated "m" "t", "a"⟩).delivered = [5]
    ∧ (notifyClients (fun _ => false) (registerOp Registry.empty "a" 5)
        ⟨"message_created", .messageCreated "m" "t", "b"⟩).delivered = [] := by
  have h1 := registry_keyed_by_raw_string.1 "a" "a" 5
  have h2 := registry_keyed_by_raw_string.1 "a" "b" 5
  constructor
  · simpa using h1
  · simpa using h2

theorem createDichotomy (env : HandlerEnv) (raw : String) :
    ((handleCreateRoomMessages env raw).1.isError = true
        ↔ (handleCreateRoomMessages env raw).2 = [])
    ∧ ((handleCreateRoomMessages env raw).1.isError = false
        ↔ (handleCreateRoomMessages env raw).2.length = 1) := by
  cases hp : uuidParse raw with
  | none => simp [handleCreateRoomMessages, hp, HttpResponse.isError]
  | some roomID =>
    cases hr : env.getRoom roomID with
    | noRows => simp [handleCreateRoomMessages, hp, hr, HttpResponse.isError]
    | otherErr => simp [handleCreateRoomMessages, hp, hr, HttpResponse.isError]
    | ok a =>
      cases hb : env.body with
      | none => simp [handleCreateRoomMessages, hp, hr, hb, HttpResponse.isError]
      | some message =>
        cases hi : env.insertMessage roomID message <;>
          simp [handleCreateRoomMessages, hp, hr, hb, hi, HttpResponse.isError]

theorem reactDichotomy (env : HandlerEnv) (raw rawm : String) :
    ((handleReactToMessage env raw rawm).1.isError = true
        ↔ (handleReactToMessage env raw rawm).2 = [])
    ∧ ((handleReactToMessage env raw rawm).1.isError = false
        ↔ (handleReactToMessage env raw rawm).2.length = 1) := by
  cases hp : uuidParse raw with
  | none => simp [handleReactToMessage, hp, HttpResponse.isError]
  | some roomID =>
    cases hr : env.getRoom roomID with
    | noRows => simp [handleReactToMessage, hp, hr, HttpResponse.isError]
    | otherErr => simp [handleReactToMessage, hp, hr, HttpResponse.isError]
    | ok a =>
      cases hm : uuidParse rawm with
      | none => simp [handleReactToMessage, hp, hr, hm, HttpResponse.isError]
      | some messageID =>
        cases hg : env.getMessage messageID with
        | noRows => simp [handleReactToMessage, hp, hr, hm, hg, HttpResponse.isError]
        | otherErr => simp [handleReactToMessage, hp, hr, hm, hg, HttpResponse.isError]
        | ok b =>
          cases hi : env.reactToMessage messageID <;>
            simp [handleReactToMessage, hp, hr, hm, hg, hi, HttpResponse.isError]

theorem removeDichotomy (env : HandlerEnv) (raw rawm : String) :
    ((handleRemoveReactFromMessage env raw rawm).1.isError = true
        ↔ (handleRemoveReactFromMessage env raw rawm).2 = [])
    ∧ ((handleRemoveReactFromMessage env raw rawm).1.isError = false
        ↔ (handleRemoveReactFromMessage env raw rawm).2.length = 1) := by
  cases hp : uuidParse raw with
  | none => simp [handleRemoveReactFromMessage, hp, HttpResponse.isError]
  | some roomID =>
    cases hr : env.getRoom roomID with
    | noRows => simp [handleRemoveReactFromMessage, hp, hr, HttpResponse.isError]
    | otherErr => simp [handleRemoveReactFromMessage, hp, hr, HttpResponse.isError]
    | ok a =>
      cases hm : uuidParse rawm with
      | none => simp [handleRemoveReactFromMessage, hp, hr, hm, HttpResponse.isError]
      | some messageID =>
        cases hg : env.getMessage messageID with
        | noRows => simp [handleRemoveReactFromMessage, hp, hr, hm, hg, HttpResponse.isError]
        | otherErr => simp [handleRemoveReactFromMessage, hp, hr, hm, hg, HttpResponse.isError]
        | ok b =>
          cases hi : env.removeReaction messageID <;>
            simp [handleRemoveReactFromMessage, hp, hr, hm, hg, hi, HttpResponse.isError]

theorem answerDichotomy (env : HandlerEnv) (raw rawm : String) :
    ((handleMarkMessageAsAnswer env raw rawm).1.isError = true
        ↔ (handleMarkMessageAsAnswer env raw rawm).2 = [])
    ∧ ((handleMarkMessageAsAnswer env raw rawm).1.isError = false
        ↔ (handleMarkMessageAsAnswer env raw rawm).2.length = 1) := by
  cases hp : uuidParse raw with
  | none => simp [handleMarkMessageAsAnswer, hp, HttpResponse.isError]
  | some roomID =>
    cases hr : env.getRoom roomID with
    | noRows => simp [handleMarkMessageAsAnswer, hp, hr, HttpResponse.isError]
    | otherErr => simp [handleMarkMessageAsAnswer, hp, hr, HttpResponse.isError]
    | ok a =>
      cases hm : uuidParse rawm with
      | none => simp [handleMarkMessageAsAnswer, hp, hr, hm, HttpResponse.isError]
      | some messageID =>
        cases hg : env.getMessage messageID with
        | noRows => simp [handleMarkMessageAsAnswer, hp, hr, hm, hg, HttpResponse.isError]
        | otherErr => simp [handleMarkMessageAsAnswer, hp, hr, hm, hg, HttpResponse.isError]
        | ok b =>
          cases hi : env.markAnswered messageID <;>
            simp [handleMarkMessageAsAnswer, hp, hr, hm, hg, hi, HttpResponse.isError]

theorem createStore (env : HandlerEnv) (raw roomID message : String)
    (hp : uuidParse raw = some roomID) (hr : env.getRoom roomID = .ok ())
    (hb : env.body = some message) :
    (env.insertMessage roomID message = .noRows
        ∨ env.insertMessage roomID message = .otherErr →
      handleCreateRoomMessages env raw = (.err 500 "something went wrong", []))
    ∧ (∀ mid, env.insertMessage roomID message = .ok mid →
      handleCreateRoomMessages env raw
        = (.ok (.obj [("id", .str mid)]),
           [⟨KindMessageCreated, .messageCreated mid message, raw⟩])) := by
  constructor
  · rintro (hi | hi) <;> simp [handleCreateRoomMessages, hp, hr, hb, hi]
  · intro mid hi
    simp [handleCreateRoomMessages, hp, hr, hb, hi]

theorem reactStore (env : HandlerEnv) (raw rawm roomID messageID : String)
    (hp : uuidParse raw = some roomID) (hr : env.getRoom roomID = .ok ())
    (hm : uuidParse rawm = some messageID) (hg : env.getMessage messageID = .ok ()) :
    (env.reactToMessage messageID = .noRows
        ∨ env.reactToMessage messageID = .otherErr →
      handleReactToMessage env raw rawm = (.err 500 "something went wrong", []))
    ∧ (∀ cnt, env.reactToMessage messageID = .ok cnt →
      handleReactToMessage env raw rawm
        = (.ok (.obj [("react_count", .num cnt)]),
           [⟨KindMessageReactionIncreased, .messageReaction messageID cnt, raw⟩])) := by
  constructor
  · rintro (hi | hi) <;> simp [handleReactToMessage, hp, hr, hm, hg, hi]
  · intro cnt hi
    simp [handleReactToMessage, hp, hr, hm, hg, hi]

theorem removeStore (env : HandlerEnv) (raw rawm roomID messageID : String)
    (hp : uuidParse raw = some roomID) (hr : env.getRoom roomID = .ok ())
    (hm : uuidParse rawm = some messageID) (hg : env.getMessage messageID = .ok ()) :
    (env.removeReaction messageID = .noRows
        ∨ env.removeReaction messageID = .otherErr →
      handleRemoveReactFromMessage env raw rawm = (.err 500 "something went wrong", []))
    ∧ (∀ cnt, env.removeReaction messageID = .ok cnt →
      handleRemoveReactFromMessage env raw rawm
        = (.ok (.obj [("react_count", .num cnt)]),
           [⟨KindMessageReactionDecreased, .messageReaction messageID cnt, raw⟩])) := by
  constructor
  · rintro (hi | hi) <;> simp [handleRemoveReactFromMessage, hp, hr, hm, hg, hi]
  · intro cnt hi
    simp [handleRemoveReactFromMessage, hp, hr, hm, hg, hi]

theorem answerStore (env : HandlerEnv) (raw rawm roomID messageID : String)
    (hp : uuidParse raw = some roomID) (hr : env.getRoom roomID = .ok ())
    (hm : uuidParse rawm = some messageID) (hg : env.getMessage messageID = .ok ()) :
    (env.markAnswered messageID = .noRows
        ∨ env.markAnswered messageID = .otherErr →
      handleMarkMessageAsAnswer env raw rawm = (.err 500 "something went wrong", []))
    ∧ (env.markAnswered messageID = .ok () →
      handleMarkMessageAsAnswer env raw rawm
        = (.noContent,
           [⟨KindMessageAnswered, .messageCreated messageID "", raw⟩])) := by
  constructor
  · rintro (hi | hi) <;> simp [handleMarkMessageAsAnswer, hp, hr, hm, hg, hi]
  · intro hi
    simp [handleMarkMessageAsAnswer, hp, hr, hm, hg, hi]

/-- C8: for each of the four state-change handlers, a broadcast is spawned
exactly when the handler's response is a success (so never on an error
response, and exactly once on success); and at the mutating store call,
any store error yields a 500 error response with no broadcast while a
store success yields the success response with the handler's single
event. -/
theorem broadcast_only_on_success :
    (∀ (env : HandlerEnv) (raw : String),
        ((handleCreateRoomMessages env raw).1.isError = true
            ↔ (handleCreateRoomMessages env raw).2 = [])
        ∧ ((handleCreateRoomMessages env raw).1.isError = false
            ↔ (handleCreateRoomMessages env raw).2.length = 1))
    ∧ (∀ (env : HandlerEnv) (raw rawm : String),
        ((handleReactToMessage env raw rawm).1.isError = true
            ↔ (handleReactToMessage env raw rawm).2 = [])
        ∧ ((handleReactToMessage env raw rawm).1.isError = false
            ↔ (handleReactToMessage env raw rawm).2.length = 1))
    ∧ (∀ (env : HandlerEnv) (raw rawm : String),
        ((handleRemoveReactFromMessage env raw rawm).1.isError = true
            ↔ (handleRemoveReactFromMessage env raw rawm).2 = [])
        ∧ ((handleRemoveReactFromMessage env raw rawm).1.isError = false
            ↔ (handleRemoveReactFromMessage env raw rawm).2.length = 1))
    ∧ (∀ (env : HandlerEnv) (raw rawm : String),
        ((handleMarkMessageAsAnswer env raw rawm).1.isError = true
            ↔ (handleMarkMessageAsAnswer env raw rawm).2 = [])
        ∧ ((handleMarkMessageAsAnswer env raw rawm).1.isError = false
            ↔ (handleMarkMessageAsAnswer env raw rawm).2.length = 1))
    ∧ (∀ (env : HandlerEnv) (raw roomID message : String),
        uuidParse raw = some roomID → env.getRoom roomID = .ok () →
        env.body = some message →
        (env.insertMessage roomID message = .noRows
            ∨ env.insertMessage roomID message = .otherErr →
          handleCreateRoomMessages env raw = (.err 500 "something went wrong", []))
        ∧ (∀ mid, env.insertMessage roomID message = .ok mid →
          handleCreateRoomMessages env raw
            = (.ok (.obj [("id", .str mid)]),
               [⟨KindMessageCreated, .messageCreated mid message, raw⟩])))
    ∧ (∀ (env : HandlerEnv) (raw rawm roomID messageID : String),
        uuidParse raw = some roomID → env.getRoom roomID = .ok () →
        uuidParse rawm = some messageID → env.getMessage messageID = .ok () →
        (env.reactToMessage messageID = .noRows
            ∨ env.reactToMessage messageID = .otherErr →
          handleReactToMessage env raw rawm = (.err 500 "something went wrong", []))
        ∧ (∀ cnt, env.reactToMessage messageID = .ok cnt →
          handleReactToMessage env raw rawm
            = (.ok (.obj [("react_count", .num cnt)]),
               [⟨KindMessageReactionIncreased, .messageReaction messageID cnt, raw⟩])))
    ∧ (∀ (env : HandlerEnv) (raw rawm roomID messageID : String),
        uuidParse raw = some roomID → env.getRoom roomID = .ok () →
        uuidParse rawm = some messageID → env.getMessage messageID = .ok () →
        (env.removeReaction messageID = .noRows
            ∨ env.removeReaction messageID = .otherErr →
          handleRemoveReactFromMessage env raw rawm
            = (.err 500 "something went wrong", []))
        ∧ (∀ cnt, env.removeReaction messageID = .ok cnt →
          handleRemoveReactFromMessage env raw rawm
            = (.ok (.obj [("react_count", .num cnt)]),
               [⟨KindMessageReactionDecreased, .messageReaction messageID cnt, raw⟩])))
    ∧ (∀ (env : HandlerEnv) (raw rawm roomID messageID : String),
        uuidParse raw = some roomID → env.getRoom roomID = .ok () →
        uuidParse rawm = some messageID → env.getMessage messageID = .ok () →
        (env.markAnswered messageID = .noRows
            ∨ env.markAnswered messageID = .otherErr →
          handleMarkMessageAsAnswer env raw rawm
            = (.err 500 "something went wrong", []))
        ∧ (env.markAnswered messageID = .ok () →
          handleMarkMessageAsAnswer env raw rawm
            = (.noContent,
               [⟨KindMessageAnswered, .messageCreated messageID "", raw⟩]))) :=
  ⟨createDichotomy, reactDichotomy, removeDichotomy, answerDichotomy,
   fun env raw roomID message => createStore env raw roomID message,
   fun env raw rawm roomID messageID => reactStore env raw rawm roomID messageID,
   fun env raw rawm roomID messageID => removeStore env raw rawm roomID messageID,
   fun env raw rawm roomID messageID => answerStore env raw rawm roomID messageID⟩

/-- Witness for C8: with a store whose `InsertMessage` fails, the create
handler answers 500 and spawns no broadcast. -/
theorem broadcast_only_on_success_witness :
    handleCreateRoomMessages
        ⟨fun _ => .ok (), fun _ => .ok (), fun _ _ => .otherErr, fun _ => .ok 0,
         fun _ => .ok 0, fun _ => .ok (), some "hi"⟩
        "7cc67d16-178a-4f26-8b9c-ae38c1bbc52a"
      = (.err 500 "something went wrong", []) :=
  ((broadcast_only_on_success.2.2.2.2.1
      ⟨fun _ => .ok (), fun _ => .ok (), fun _ _ => .otherErr, fun _ => .ok 0,
       fun _ => .ok 0, fun _ => .ok (), some "hi"⟩
      "7cc67d16-178a-4f26-8b9c-ae38c1bbc52a" "7cc67d16-178a-4f26-8b9c-ae38c1bbc52a"
      "hi" (by rfl) (by rfl) (by rfl)).1 (Or.inr (by rfl)))

theorem lookup_entries_eq (reg : Registry) (hnd : keysNodup reg) (roomId : String)
    (e : List Sub) (hfind : lookupRoom reg roomId = some e) :
    ∀ p ∈ reg, p.1 = roomId → p.2 = e := by
  induction reg with
  | nil => simp [lookupRoom] at hfind
  | cons q rest ih =>
      rw [keysNodup, List.map_cons, List.nodup_cons] at hnd
      intro p hp hp1
      by_cases hq : q.1 = roomId
      · have he : q.2 = e := by
          unfold lookupRoom at hfind
          rw [List.find?_cons_of_pos _ (by simpa using hq)] at hfind
          simpa using hfind
        rcases List.mem_cons.mp hp with rfl | hprest
        · exact he
        · exfalso
          have hmem : p.1 ∈ List.map Prod.fst rest := List.mem_map_of_mem Prod.fst hprest
          rw [hp1, ← hq] at hmem
          exact hnd.1 hmem
      · have hfind2 : lookupRoom rest roomId = some e := by
          unfold lookupRoom at hfind ⊢
          rwa [List.find?_cons_of_neg _ (by simpa using hq)] at hfind
        rcases List.mem_cons.mp hp with rfl | hprest
        · exact absurd hp1 hq
        · exact ih hnd.2 hfind2 p hprest hp1

/-- C7: deregistration is idempotent and a no-op on absent subscribers: on
a registry whose keys are unique (a genuine Go map state), removing a
connection that is not in the room's set — in particular when the room has
no set at all — leaves the registry exactly as it was, and removing the
same connection twice equals removing it once. -/
theorem deregister_idempotent (reg : Registry) (roomId : String) (c : Nat)
    (hnd : keysNodup reg) :
    (connInRoom reg roomId c = false → deregisterOp reg roomId c = reg)
    ∧ deregisterOp (deregisterOp reg roomId c) roomId c
        = deregisterOp reg roomId c := by
  constructor
  · intro hcon
    unfold deregisterOp
    have habsent : ∀ p ∈ reg, p.1 = roomId → p.2.filter (fun s => s.conn ≠ c) = p.2 := by
      intro p hp hp1
      cases hfind : lookupRoom reg roomId with
      | none =>
          exfalso
          unfold lookupRoom at hfind
          rw [Option.map_eq_none'] at hfind
          exact (List.find?_eq_none.mp hfind p hp) (by simpa using hp1)
      | some e =>
          have hpe : p.2 = e := lookup_entries_eq reg hnd roomId e hfind p hp hp1
          unfold connInRoom at hcon
          rw [hfind] at hcon
          rw [List.filter_eq_self]
          intro s hs
          subst hpe
          simp only [List.any_eq_false, decide_eq_true_eq] at hcon
          simpa using hcon s hs
    have : List.map
        (fun p => if p.1 = roomId then (p.1, p.2.filter (fun s => s.conn ≠ c)) else p) reg
        = List.map id reg := by
      apply List.map_congr_left
      intro p hp
      by_cases h : p.1 = roomId
      · rw [if_pos h, habsent p hp h]
        rfl
      · rw [if_neg h]
        rfl
    rw [this, List.map_id]
  · unfold deregisterOp
    rw [List.map_map]
    apply List.map_congr_left
    intro p hp
    by_cases h : p.1 = roomId <;>
      simp [Function.comp, h, List.filter_filter]

/-- Witness for C7: removing connection 1 from room `r2`, for which no set
exists, changes nothing; removing connection 1 from `r1` twice equals
removing it once. -/
theorem deregister_idempotent_witness :
    deregisterOp [("r1", [⟨1, false⟩])] "r2" 1 = [("r1", [⟨1, false⟩])]
    ∧ deregisterOp (deregisterOp [("r1", [⟨1, false⟩])] "r1" 1) "r1" 1
        = deregisterOp [("r1", [⟨1, false⟩])] "r1" 1 :=
  ⟨(deregister_idempotent [("r1", [⟨1, false⟩])] "r2" 1
      (by unfold keysNodup; decide)).1 (by decide),
   (deregister_idempotent [("r1", [⟨1, false⟩])] "r1" 1
      (by unfold keysNodup; decide)).2⟩

theorem roomsWith_eq_zero_of_absent (reg : Registry) (c : Nat)
    (h : connAbsent reg c = true) : roomsWith reg c = 0 := by
  unfold roomsWith
  rw [List.countP_eq_zero]
  intro p hp hany
  rw [List.any_eq_true] at hany
  obtain ⟨s, hs, hsc⟩ := hany
  unfold connAbsent at h
  rw [List.all_eq_true] at h
  have h2 := h p hp
  rw [List.all_eq_true] at h2
  have h3 := h2 s hs
  simp only [decide_eq_true_eq] at h3 hsc
  exact h3 hsc

theorem keysNodup_registerOp (reg : Registry) (roomId : String) (c : Nat)
    (hnd : keysNodup reg) : keysNodup (registerOp reg roomId c) := by
  unfold registerOp
  cases hfind : lookupRoom reg roomId with
  | none =>
      unfold keysNodup at hnd ⊢
      rw [List.map_append]
      refine List.Nodup.append hnd (by simp) ?_
      simp only [List.map_cons, List.map_nil]
      rw [List.disjoint_singleton]
      unfold lookupRoom at hfind
      rw [Option.map_eq_none'] at hfind
      rw [List.mem_map]
      rintro ⟨p, hp, hp1⟩
      exact (List.find?_eq_none.mp hfind p hp) (by simpa using hp1)
  | some e =>
      unfold keysNodup at hnd ⊢
      rw [List.map_map]
      have heq : List.map
          (Prod.fst ∘ fun p => if p.1 = roomId then (p.1, p.2 ++ [⟨c, false⟩]) else p) reg
          = List.map Prod.fst reg := by
        apply List.map_congr_left
        intro p hp
        by_cases h : p.1 = roomId <;> simp [Function.comp, h]
      rw [heq]
      exact hnd

theorem keysNodup_deregisterOp (reg : Registry) (roomId : String) (c : Nat)
    (hnd : keysNodup reg) : keysNodup (deregisterOp reg roomId c) := by
  unfold keysNodup at hnd ⊢
  unfold deregisterOp
  rw [List.map_map]
  have heq : List.map
      (Prod.fst ∘ fun p =>
        if p.1 = roomId then (p.1, p.2.filter (fun s => s.conn ≠ c)) else p) reg
      = List.map Prod.fst reg := by
    apply List.map_congr_left
    intro p hp
    by_cases h : p.1 = roomId <;> simp [Function.comp, h]
  rw [heq]
  exact hnd

theorem countP_key_eq_one (reg : Registry) (roomId : String)
    (hnd : keysNodup reg) (hmem : roomId ∈ reg.map Prod.fst) :
    List.countP (fun p => decide (p.1 = roomId)) reg = 1 := by
  have h1 : List.count roomId (reg.map Prod.fst) = 1 := by
    have hle := List.nodup_iff_count_le_one.mp hnd roomId
    have hpos : 0 < List.count roomId (reg.map Prod.fst) := List.count_pos_iff.mpr hmem
    omega
  rw [List.count_eq_countP, List.countP_map] at h1
  rw [← h1]
  apply List.countP_congr
  intro p hp
  simp [Function.comp]

theorem roomsWith_registerOp_self (reg : Registry) (roomId : String) (c : Nat)
    (hnd : keysNodup reg) (habs : connAbsent reg c = true) :
    roomsWith (registerOp reg roomId c) c = 1 := by
  unfold registerOp
  cases hfind : lookupRoom reg roomId with
  | none =>
      have h0 : roomsWith reg c = 0 := roomsWith_eq_zero_of_absent reg c habs
      unfold roomsWith at h0 ⊢
      rw [List.countP_append, h0]
      simp
  | some e =>
      unfold roomsWith
      rw [List.countP_map]
      have hcongr : List.countP
          ((fun p => p.2.any fun s => decide (s.conn = c)) ∘ fun p =>
            if p.1 = roomId then (p.1, p.2 ++ [⟨c, false⟩]) else p) reg
          = List.countP (fun p => decide (p.1 = roomId)) reg := by
        apply List.countP_congr
        intro p hp
        by_cases h : p.1 = roomId
        · simp [Function.comp, h, List.any_append]
        · have hfalse : p.2.any (fun s => decide (s.conn = c)) = false := by
            rw [List.any_eq_false]
            intro s hs
            unfold connAbsent at habs
            rw [List.all_eq_true] at habs
            have := List.all_eq_true.mp (habs p hp) s hs
            simpa using this
          simp [Function.comp, h, hfalse]
      rw [hcongr]
      apply countP_key_eq_one reg roomId hnd
      unfold lookupRoom at hfind
      obtain ⟨e2, hfind2, he2⟩ := Option.map_eq_some'.mp hfind
      have hm : e2 ∈ reg := List.mem_of_find?_eq_some hfind2
      have h1 : e2.1 = roomId := by simpa using List.find?_some hfind2
      rw [List.mem_map]
      exact ⟨e2, hm, h1⟩

theorem roomsWith_registerOp_other (reg : Registry) (roomId : String) (c0 c : Nat)
    (hne : c ≠ c0) :
    roomsWith (registerOp reg roomId c0) c = roomsWith reg c := by
  unfold registerOp
  cases hfind : lookupRoom reg roomId with
  | none =>
      unfold roomsWith
      rw [List.countP_append]
      simp [Ne.symm hne]
  | some e =>
      unfold roomsWith
      rw [List.countP_map]
      apply List.countP_congr
      intro p hp
      by_cases h : p.1 = roomId <;>
        simp [Function.comp, h, List.any_append, Ne.symm hne]

theorem roomsWith_deregisterOp_le (reg : Registry) (roomId : String) (c0 c : Nat) :
    roomsWith (deregisterOp reg roomId c0) c ≤ roomsWith reg c := by
  unfold roomsWith deregisterOp
  rw [List.countP_map]
  apply List.countP_mono_left
  intro p hp hpred
  by_cases h : p.1 = roomId
  · simp only [Function.comp_apply, h, if_true] at hpred
    rw [List.any_eq_true] at hpred ⊢
    obtain ⟨s, hs, hsc⟩ := hpred
    exact ⟨s, (List.mem_filter.mp hs).1, hsc⟩
  · simpa [Function.comp, h] using hpred

/-- C9: in every registry state reachable by the mutations the code
performs (registration of a fresh `Upgrade`-produced connection,
deregistration), a connection belongs to the subscriber set of at most one
room; and registering a fresh connection puts it into exactly one room's
set. -/
theorem registry_single_room_invariant (reg : Registry) (h : Reachable reg) :
    (∀ c, roomsWith reg c ≤ 1)
    ∧ (∀ (roomId : String) (c : Nat), connAbsent reg c = true →
        roomsWith (registerOp reg roomId c) c = 1) := by
  have hInv : keysNodup reg ∧ ∀ c, roomsWith reg c ≤ 1 := by
    induction h with
    | empty =>
        exact ⟨List.nodup_nil, fun c => by simp [roomsWith, Registry.empty]⟩
    | @step rega regb hr hs ih =>
        cases hs with
        | register roomId c fresh =>
            refine ⟨keysNodup_registerOp rega roomId c ih.1, fun c2 => ?_⟩
            by_cases hc : c2 = c
            · subst hc
              rw [roomsWith_registerOp_self rega roomId c2 ih.1 fresh]
            · rw [roomsWith_registerOp_other rega roomId c c2 hc]
              exact ih.2 c2
        | deregister roomId c =>
            exact ⟨keysNodup_deregisterOp rega roomId c ih.1, fun c2 =>
              le_trans (roomsWith_deregisterOp_le rega roomId c c2) (ih.2 c2)⟩
  exact ⟨hInv.2, fun roomId c habs =>
    roomsWith_registerOp_self reg roomId c hInv.1 habs⟩

/-- Witness for C9: after registering connection 1 under room `r1` from
the empty table, connection 1 is in at most one room, and registering
fresh connection 2 under `r2` puts it into exactly one room. -/
theorem registry_single_room_invariant_witness :
    roomsWith (registerOp Registry.empty "r1" 1) 1 ≤ 1
    ∧ roomsWith (registerOp (registerOp Registry.empty "r1" 1) "r2" 2) 2 = 1 := by
  have hreach : Reachable (registerOp Registry.empty "r1" 1) :=
    .step .empty (.register Registry.empty "r1" 1 (by decide))
  have h := registry_single_room_invariant (registerOp Registry.empty "r1" 1) hreach
  exact ⟨h.1 1, h.2 "r2" 2 (by decide)⟩

end Fanout
